import Mathlib

/-!
Shallow embedding of the scoring/matching core of `Skinne_Advisor.py`
(survey-driven treatment recommendation tool).

Python lists such as P-Scores and T-Scores are heterogeneous: the first
element is a string identifier (concern code) and the rest are integers.
We model list elements with `ScoreElem`.  Fallible Python functions
(raising `ValueError`, `TypeError`, `IndexError`) are modelled as
`Except String` computations carrying the error message.  Python string
operations (`strip`, `split`, `replace`, `startswith`, `int(...)`) are
modelled over `List Char` so that all definitions evaluate by kernel
reduction.
-/

deriving instance DecidableEq for Except

namespace SkinneAdvisor

/-- An element of a P-Score or T-Score list: Python lists here hold either a
string identifier (the concern code, in position 0) or an integer score. -/
inductive ScoreElem where
  | str (s : String)
  | int (n : Int)
deriving DecidableEq, Repr

/-- The comma character. -/
def commaChar : Char := Char.ofNat 44

/-- The space character. -/
def spaceChar : Char := Char.ofNat 32

/-- The single-quote character. -/
def quoteChar : Char := Char.ofNat 39

/-- The opening square bracket. -/
def lbrackChar : Char := Char.ofNat 91

/-- The closing square bracket. -/
def rbrackChar : Char := Char.ofNat 93

/-- The minus sign. -/
def minusChar : Char := Char.ofNat 45

/-- The plus sign. -/
def plusChar : Char := Char.ofNat 43

/-- Numeric value of an ASCII digit string (no sign). -/
def digitsToNat (cs : List Char) : Nat :=
  cs.foldl (fun acc c => acc * 10 + (c.toNat - 48)) 0

/-- Model of Python `s.strip()`: remove leading and trailing whitespace. -/
def pyStripWs (cs : List Char) : List Char :=
  ((cs.dropWhile Char.isWhitespace).reverse.dropWhile Char.isWhitespace).reverse

/-- Model of Python `s.strip("[]")`: remove leading and trailing square
brackets. -/
def pyStripBrackets (cs : List Char) : List Char :=
  ((cs.dropWhile fun c => c == lbrackChar || c == rbrackChar).reverse.dropWhile
      fun c => c == lbrackChar || c == rbrackChar).reverse

/-- Model of Python `s.split(", ")`: split on the exact two-character
separator, scanning left to right; `acc` holds the current (reversed)
segment. `"".split(", ")` is `[""]`, so the result is never empty. -/
def splitCommaSpace : List Char → List Char → List (List Char)
  | [], acc => [acc.reverse]
  | [c], acc => [(c :: acc).reverse]
  | c1 :: c2 :: cs, acc =>
    if c1 == commaChar && c2 == spaceChar then
      acc.reverse :: splitCommaSpace cs []
    else
      splitCommaSpace (c2 :: cs) (c1 :: acc)

/-- Model of Python `int(s)` on a character string: optional surrounding
whitespace, optional sign, then decimal digits; `none` models a
`ValueError`. -/
def pyIntOfChars (s : List Char) : Option Int :=
  match pyStripWs s with
  | [] => none
  | c :: rest =>
    if c == minusChar then
      if rest ≠ [] ∧ rest.all Char.isDigit then some (-(digitsToNat rest : Int)) else none
    else if c == plusChar then
      if rest ≠ [] ∧ rest.all Char.isDigit then some (digitsToNat rest : Int) else none
    else
      if (c :: rest).all Char.isDigit then some (digitsToNat (c :: rest) : Int) else none

/-- Model of Python `s.startswith(pre)`. -/
def pyStartsWith (pre s : String) : Bool :=
  List.isPrefixOf pre.toList s.toList

/-- `safe_int_conversion` from `calculate_d_score` (source lines 218-222):
`int(value)` is the identity on ints; on strings it parses, and a
`ValueError` is caught and replaced by the sentinel `-1`. -/
def safe_int_conversion : ScoreElem → Int
  | .int n => n
  | .str s => (pyIntOfChars s.toList).getD (-1)

/-- The generator sum on source line 224:
`sum(abs(p - safe_int_conversion(t)) for p, t in zip(p_score[1:], t_score[1:]))`.
Terms are evaluated left to right; a non-numeric `p` raises a `TypeError`
(uncaught, since only `ValueError` is handled inside `safe_int_conversion`). -/
def d_sum : List (ScoreElem × ScoreElem) → Int → Except String Int
  | [], acc => .ok acc
  | (p, t) :: rest, acc =>
    match p with
    | .int n => d_sum rest (acc + |n - safe_int_conversion t|)
    | .str _ => .error "TypeError: unsupported operand type"

/-- `calculate_d_score` (source lines 197-224).  The `isinstance(list)`
check is vacuous in this model since both arguments are Lean lists. -/
def calculate_d_score (p_score t_score : List ScoreElem) : Except String Int :=
  if p_score.length ≠ t_score.length then
    .error "p_score and t_score must have the same length."
  else if p_score.length ≤ 1 ∨ t_score.length ≤ 1 then
    .error "p_score and t_score must contain at least one scoring element beyond the first identifier."
  else
    d_sum (p_score.tail.zip t_score.tail) 0

/-- The element strings of a T-Score string (source line 157):
`t_score_str.strip("[]").replace("'", "").split(", ")`.  Replacing a
single-quote by the empty string is removal of every quote character. -/
def tScoreElements (t_score_str : String) : List (List Char) :=
  splitCommaSpace ((pyStripBrackets t_score_str.toList).filter fun c => c != quoteChar) []

/-- `convert_t_score` (source lines 144-167): strip brackets, remove single
quotes, split on `", "`; keep the first element as the identifier and
convert the rest with a per-element `safe_int_conversion` that falls back
to `-1` on parse failure.  The Python `len(elements) < 1` check is dead
(`split` always returns at least one element), mirrored by the `[]` case. -/
def convert_t_score (t_score_str : String) : Except String (List ScoreElem) :=
  if t_score_str = "" then
    .error "Input must be a non-empty string representing a T-Score."
  else
    match tScoreElements t_score_str with
    | [] => .error "Input string is not in the expected format. Must contain at least one element."
    | e0 :: rest =>
      .ok (ScoreElem.str (String.mk e0) :: rest.map fun i => ScoreElem.int ((pyIntOfChars i).getD (-1)))

/-- A row of the loaded treatment catalog sheet, before scoring: the
`Concern Code` column (a missing value — pandas `NaN` — is `none`) and the
raw `T-Score` string column.  The display attribute columns play no role
in the scoring pipeline and are not modelled. -/
structure CatalogRow where
  concernCode : Option String
  tScoreStr : String
deriving DecidableEq, Repr

/-- A catalog row after the `T-Score` column has been converted and the
`D-Score` column added (source lines 251-252). -/
structure ScoredRow where
  concernCode : Option String
  tScore : List ScoreElem
  dScore : Int
deriving DecidableEq, Repr

/-- Python truthiness test (`if not concern_code`) on a score element:
the empty string and the integer zero are falsy. -/
def pyFalsy : ScoreElem → Bool
  | .str s => s == ""
  | .int n => n == 0

/-- The pandas filter condition on source line 190: the row has a concern
code and it starts with the target code (rows without a code were already
dropped; on them the condition is `false`). -/
def ccMatch (code : String) (r : ScoredRow) : Bool :=
  match r.concernCode with
  | some s => pyStartsWith code s
  | none => false

/-- `filter_treatments` (source lines 169-195): validate the inputs, drop
rows with a missing `Concern Code` (`dropna`), keep rows whose code starts
with the target, and raise when nothing is left.  The `Concern Code`
column exists by construction in this row model, so the column-presence
check on line 183 is vacuous; the `isinstance(concern_code, str)` part of
the check on line 186 corresponds to the `.int` case. -/
def filter_treatments (data : List ScoredRow) (concern_code : ScoreElem) : Except String (List ScoredRow) :=
  if data = [] then .error "Input data must be a non-empty Pandas DataFrame."
  else
    match concern_code with
    | .int _ => .error "Concern Code must be a non-empty string."
    | .str code =>
      if pyStripWs code.toList = [] then .error "Concern Code must be a non-empty string."
      else
        let dropped := data.filter fun r => r.concernCode.isSome
        let filtered := dropped.filter (ccMatch code)
        if filtered = [] then .error ("No treatments found for Concern Code: " ++ code)
        else .ok filtered

/-- Model of pandas `Series.apply` over a column: apply `f` to every row
value, propagating the first raised error. -/
def mapExcept (f : α → Except String β) : List α → Except String (List β)
  | [] => .ok []
  | a :: l =>
    match f a with
    | .error e => .error e
    | .ok b =>
      match mapExcept f l with
      | .error e => .error e
      | .ok bs => .ok (b :: bs)

/-- Source lines 251-252: `data["T-Score"] = data["T-Score"].apply(convert_t_score)`
followed by `data["D-Score"] = data.apply(lambda row: calculate_d_score(p_score, row["T-Score"]), axis=1)`.
All T-Score conversions run first, then all D-Score computations; either
phase aborts on its first failing row. -/
def scoreAll (p_score : List ScoreElem) (data : List CatalogRow) : Except String (List ScoredRow) :=
  match mapExcept (fun r => convert_t_score r.tScoreStr) data with
  | .error e => .error e
  | .ok tss =>
    match mapExcept (fun ts => calculate_d_score p_score ts) tss with
    | .error e => .error e
    | .ok ds =>
      .ok ((data.zip (tss.zip ds)).map fun x =>
        { concernCode := x.1.concernCode, tScore := x.2.1, dScore := x.2.2 })

/-- Ordering of scored rows by their `D-Score` column. -/
def dScoreLE (a b : ScoredRow) : Prop := a.dScore ≤ b.dScore

instance : DecidableRel dScoreLE := fun a b => Int.decLe a.dScore b.dScore

instance : IsTotal ScoredRow dScoreLE := ⟨fun a b => Int.le_total a.dScore b.dScore⟩

instance : IsTrans ScoredRow dScoreLE := ⟨fun _ _ _ h h2 => le_trans h h2⟩

/-- Model of pandas `DataFrame.nsmallest(n, "D-Score")` (source line 260)
with the default `keep="first"`: the `n` rows with the smallest `D-Score`,
in ascending order, ties resolved in favour of earlier rows — a stable
ascending sort followed by taking the first `n` rows. -/
def nsmallest (n : Nat) (rows : List ScoredRow) : List ScoredRow :=
  (rows.insertionSort dScoreLE).take n

/-- `recommend_treatments` (source lines 226-294), from the point where the
catalog sheet has been loaded: the sheet selection by injectable
preference and the Streamlit session state are UI plumbing modelled
upstream, so the loaded sheet is the `data` argument and the result is the
recommendation table (source `final_table` restricted to the modelled
columns), with every `st.error` path an `Except.error`.  `p_score[0]` on
an empty list is an `IndexError`; the emptiness re-check on line 255 is
dead (`filter_treatments` raises instead of returning an empty frame) but
is mirrored faithfully. -/
def recommend_treatments (p_score : List ScoreElem) (data : List CatalogRow) : Except String (List ScoredRow) :=
  if data = [] then .error "Unable to load data from the sheet."
  else
    match p_score.head? with
    | none => .error "IndexError: list index out of range"
    | some e =>
      if pyFalsy e then .error "Invalid concern code extracted. Please check your responses."
      else
        match scoreAll p_score data with
        | .error err => .error err
        | .ok scored =>
          match filter_treatments scored e with
          | .error err => .error err
          | .ok filtered =>
            if filtered = [] then .error "No matching treatments found after filtering and scoring."
            else .ok (nsmallest 5 filtered)

/-- Modelled from the spec: §2 describes the Matcher as a component that
"filters catalog rows by concern-code prefix match, computes a distance
(D-Score) between the P-Score and each T-Score, and selects the 5
lowest-distance rows" — that is, prefix filtering happens first and
T-Score conversion and D-Score computation run only on the rows that
passed the filter.  This definition follows the spec's words; it is the
comparison point for the ordering claim about `recommend_treatments`. -/
def recommend_treatments_filter_first (p_score : List ScoreElem) (data : List CatalogRow) :
    Except String (List ScoredRow) :=
  if data = [] then .error "Unable to load data from the sheet."
  else
    match p_score.head? with
    | none => .error "IndexError: list index out of range"
    | some e =>
      if pyFalsy e then .error "Invalid concern code extracted. Please check your responses."
      else
        match e with
        | .int _ => .error "Concern Code must be a non-empty string."
        | .str code =>
          if pyStripWs code.toList = [] then .error "Concern Code must be a non-empty string."
          else
            let kept := (data.filter fun r => r.concernCode.isSome).filter
              fun r => pyStartsWith code (r.concernCode.getD "")
            if kept = [] then .error ("No treatments found for Concern Code: " ++ code)
            else
              match scoreAll p_score kept with
              | .error err => .error err
              | .ok scored => .ok (nsmallest 5 scored)

/-- Model of Python `s.split(sep)` for a one-character separator. -/
def splitChar (sep : Char) : List Char → List Char → List (List Char)
  | [], acc => [acc.reverse]
  | c :: cs, acc =>
    if c == sep then acc.reverse :: splitChar sep cs []
    else splitChar sep cs (c :: acc)

/-- `extract_concern_code` (source lines 96-102): the second
whitespace-separated segment of the specific-interest string, when there
are at least two segments. -/
def extract_concern_code (specific_interest : String) : Option String :=
  if specific_interest = "" then none
  else
    let parts := splitChar spaceChar specific_interest.toList []
    if 1 < parts.length then (parts.get? 1).map String.mk else none

/-- A survey question: a prompt and its options (source `questions.json`
entries).  The answer to a question is the 1-based index of the chosen
option, stored in the responses mapping under the prompt. -/
structure Question where
  question : String
  options : List String
deriving DecidableEq, Repr

/-- The P-Score construction of `display_p_score` (source lines 104-134),
up to the point where `recommend_treatments` is invoked: validate the
question list, extract the specific-interest code, build
`[code] + [responses.get(q["question"], 1) for q in questions[1:]]`, and
check the length against the question count.  The responses mapping is
modelled as a partial map from prompt to integer answer; the voucher
generation and the Streamlit display that follow are UI plumbing. -/
def display_p_score (questions : List Question) (responses : String → Option Int)
    (specific_interest : Option String) : Except String (List ScoreElem) :=
  if questions = [] then .error "Questions data is missing or improperly formatted."
  else
    match extract_concern_code (specific_interest.getD "") with
    | none => .error "Specific Interest Code is invalid or missing. Please ensure you have completed the survey."
    | some code =>
      if code = "" then .error "Specific Interest Code is invalid or missing. Please ensure you have completed the survey."
      else
        let scores := ScoreElem.str code :: (questions.tail.map fun q => ScoreElem.int ((responses q.question).getD 1))
        if scores.length ≠ questions.length then
          .error "Incomplete data. Please answer all the questions before submitting."
        else .ok scores

/-! ### Helper lemmas -/

theorem d_sum_map_int (ps ts : List Int) (acc : Int) :
    d_sum ((ps.map ScoreElem.int).zip (ts.map ScoreElem.int)) acc
      = .ok (acc + ((ps.zip ts).map fun pt => |pt.1 - pt.2|).sum) := by
  induction ps generalizing ts acc with
  | nil => simp [d_sum]
  | cons p ps ih =>
    cases ts with
    | nil => simp [d_sum]
    | cons t ts =>
      have step : d_sum (((p :: ps).map ScoreElem.int).zip ((t :: ts).map ScoreElem.int)) acc
          = d_sum ((ps.map ScoreElem.int).zip (ts.map ScoreElem.int)) (acc + |p - t|) := rfl
      rw [step, ih ts (acc + |p - t|)]
      simp only [List.zip_cons_cons, List.map_cons, List.sum_cons]
      rw [add_assoc]

theorem sum_abs_zip_nonneg (l : List (Int × Int)) :
    0 ≤ (l.map fun pt => |pt.1 - pt.2|).sum := by
  induction l with
  | nil => simp
  | cons a l ih =>
    simp only [List.map_cons, List.sum_cons]
    have := abs_nonneg (a.1 - a.2)
    omega

theorem sum_abs_zip_eq_zero_iff (ps : List Int) : ∀ (ts : List Int), ps.length = ts.length →
    ((((ps.zip ts).map fun pt => |pt.1 - pt.2|).sum = 0) ↔ ps = ts) := by
  induction ps with
  | nil =>
    intro ts h
    cases ts with
    | nil => simp
    | cons t ts => simp at h
  | cons p ps ih =>
    intro ts h
    cases ts with
    | nil => simp at h
    | cons t ts =>
      have hlen : ps.length = ts.length := by simpa using h
      simp only [List.zip_cons_cons, List.map_cons, List.sum_cons]
      constructor
      · intro h0
        have hnn := sum_abs_zip_nonneg (ps.zip ts)
        have habs := abs_nonneg (p - t)
        have h1 : |p - t| = 0 := by omega
        have h2 : ((ps.zip ts).map fun pt => |pt.1 - pt.2|).sum = 0 := by omega
        have hp : p = t := by
          have := abs_eq_zero.mp h1
          omega
        rw [hp, (ih ts hlen).mp h2]
      · intro he
        cases he
        rw [(ih ps rfl).mpr rfl]
        simp

theorem ccMatch_none {code : String} {r : ScoredRow} (h : r.concernCode = none) :
    ccMatch code r = false := by
  unfold ccMatch
  rw [h]

theorem ccMatch_some {code : String} {r : ScoredRow} {s : String} (h : r.concernCode = some s) :
    ccMatch code r = pyStartsWith code s := by
  unfold ccMatch
  rw [h]

theorem ccMatch_isSome {code : String} {r : ScoredRow} (h : ccMatch code r = true) :
    r.concernCode.isSome = true := by
  cases hc : r.concernCode with
  | none => rw [ccMatch_none hc] at h; cases h
  | some s => simp [hc]

theorem filter_isSome_ccMatch (data : List ScoredRow) (code : String) :
    (data.filter fun r => r.concernCode.isSome).filter (ccMatch code)
      = data.filter (ccMatch code) := by
  rw [List.filter_filter]
  apply List.filter_congr
  intro r _
  cases hc : r.concernCode with
  | none => rw [ccMatch_none hc]; simp [hc]
  | some s => simp [hc]

theorem filter_treatments_eq (data : List ScoredRow) (code : String)
    (hd : data ≠ []) (hc : pyStripWs code.toList ≠ []) :
    filter_treatments data (.str code)
      = if data.filter (ccMatch code) = []
          then .error ("No treatments found for Concern Code: " ++ code)
          else .ok (data.filter (ccMatch code)) := by
  simp only [filter_treatments, if_neg hd, if_neg hc, filter_isSome_ccMatch]

theorem filter_treatments_ok_inv {data rows : List ScoredRow} {code : String}
    (h : filter_treatments data (.str code) = .ok rows) :
    rows = data.filter (ccMatch code) ∧ rows ≠ [] := by
  by_cases hd : data = []
  · simp only [filter_treatments, if_pos hd] at h
    cases h
  · by_cases hc : pyStripWs code.toList = []
    · simp only [filter_treatments, if_neg hd, if_pos hc] at h
      cases h
    · simp only [filter_treatments, if_neg hd, if_neg hc, filter_isSome_ccMatch] at h
      by_cases hf : data.filter (ccMatch code) = []
      · rw [if_pos hf] at h; cases h
      · rw [if_neg hf] at h
        cases h
        exact ⟨rfl, hf⟩

theorem mapExcept_ok_length {f : α → Except String β} :
    ∀ {l : List α} {bs : List β}, mapExcept f l = .ok bs → bs.length = l.length := by
  intro l
  induction l with
  | nil =>
    intro bs h
    unfold mapExcept at h
    cases h
    rfl
  | cons a l ih =>
    intro bs h
    unfold mapExcept at h
    cases hfa : f a with
    | error e => rw [hfa] at h; cases h
    | ok b =>
      rw [hfa] at h
      cases hml : mapExcept f l with
      | error e => rw [hml] at h; cases h
      | ok bs2 =>
        rw [hml] at h
        cases h
        simp [ih hml]

theorem mapExcept_error_of_mem {f : α → Except String β} {l : List α} {a : α} {e : String}
    (ha : a ∈ l) (hfa : f a = .error e) : ∃ e2, mapExcept f l = .error e2 := by
  induction l with
  | nil => cases ha
  | cons b l ih =>
    rcases List.mem_cons.mp ha with rfl | ha2
    · exact ⟨e, by unfold mapExcept; rw [hfa]⟩
    · cases hfb : f b with
      | error e3 => exact ⟨e3, by unfold mapExcept; rw [hfb]⟩
      | ok bv =>
        obtain ⟨e2, h2⟩ := ih ha2
        exact ⟨e2, by unfold mapExcept; rw [hfb, h2]⟩

theorem scoreAll_ok_length {p : List ScoreElem} {data : List CatalogRow} {scored : List ScoredRow}
    (h : scoreAll p data = .ok scored) : scored.length = data.length := by
  unfold scoreAll at h
  split at h
  · cases h
  · rename_i tss h1
    split at h
    · cases h
    · rename_i ds h2
      cases h
      have l1 := mapExcept_ok_length h1
      have l2 := mapExcept_ok_length h2
      simp [List.length_zip, l1, l2]

theorem scoreAll_error_of_convert {p : List ScoreElem} {data : List CatalogRow}
    {r : CatalogRow} {e : String}
    (hr : r ∈ data) (he : convert_t_score r.tScoreStr = .error e) :
    ∃ e2, scoreAll p data = .error e2 := by
  obtain ⟨e2, h2⟩ := mapExcept_error_of_mem (f := fun r => convert_t_score r.tScoreStr) hr he
  exact ⟨e2, by unfold scoreAll; rw [h2]⟩

theorem nsmallest_length (n : Nat) (rows : List ScoredRow) :
    (nsmallest n rows).length = min n rows.length := by
  simp [nsmallest, List.length_take, List.length_insertionSort]

theorem nsmallest_sorted (n : Nat) (rows : List ScoredRow) :
    (nsmallest n rows).Pairwise dScoreLE :=
  List.Pairwise.sublist (List.take_sublist n _) (List.sorted_insertionSort dScoreLE rows)

theorem nsmallest_subset {n : Nat} {rows : List ScoredRow} {r : ScoredRow}
    (h : r ∈ nsmallest n rows) : r ∈ rows :=
  (List.mem_insertionSort _).mp (List.take_subset n _ h)

theorem insertionSort_filter_dscore (rows : List ScoredRow) (d : Int) :
    (rows.insertionSort dScoreLE).filter (fun r => r.dScore == d)
      = rows.filter (fun r => r.dScore == d) := by
  have hp : (rows.filter (fun r => r.dScore == d)).Pairwise dScoreLE := by
    apply List.pairwise_of_forall_mem_list
    intro a ha b hb
    have ha2 : a.dScore = d := by simpa using List.of_mem_filter ha
    have hb2 : b.dScore = d := by simpa using List.of_mem_filter hb
    show a.dScore ≤ b.dScore
    rw [ha2, hb2]
  have hsub : List.Sublist (rows.filter fun r => r.dScore == d) (rows.insertionSort dScoreLE) :=
    List.sublist_insertionSort hp (List.filter_sublist rows)
  have hself : (rows.filter (fun r => r.dScore == d)).filter (fun r => r.dScore == d)
      = rows.filter (fun r => r.dScore == d) :=
    List.filter_eq_self.mpr fun a ha => List.of_mem_filter (p := fun r : ScoredRow => r.dScore == d) ha
  have h2 : List.Sublist (rows.filter fun r => r.dScore == d)
      ((rows.insertionSort dScoreLE).filter fun r => r.dScore == d) := by
    have h3 := hsub.filter (fun r => r.dScore == d)
    rwa [hself] at h3
  have hlen : ((rows.insertionSort dScoreLE).filter (fun r => r.dScore == d)).length
      = (rows.filter (fun r => r.dScore == d)).length :=
    ((List.perm_insertionSort dScoreLE rows).filter _).length_eq
  exact (h2.eq_of_length hlen.symm).symm

theorem nsmallest_stable (n : Nat) (rows : List ScoredRow) (d : Int) :
    (nsmallest n rows).filter (fun r => r.dScore == d)
      <+: rows.filter (fun r => r.dScore == d) := by
  have h1 : nsmallest n rows <+: rows.insertionSort dScoreLE := List.take_prefix n _
  have h2 := h1.filter (fun r => r.dScore == d)
  rwa [insertionSort_filter_dscore] at h2

theorem calculate_d_score_map_int (a b : ScoreElem) (ps ts : List Int)
    (hlen : ps.length = ts.length) (hne : ps ≠ []) :
    calculate_d_score (a :: ps.map ScoreElem.int) (b :: ts.map ScoreElem.int)
      = .ok (((ps.zip ts).map fun pt => |pt.1 - pt.2|).sum) := by
  have hps : 0 < ps.length := List.length_pos.mpr hne
  unfold calculate_d_score
  rw [if_neg (by simp [hlen]),
      if_neg (by simp only [List.length_cons, List.length_map]; omega)]
  simp only [List.tail_cons]
  rw [d_sum_map_int, zero_add]

/-! ### Claim theorems -/

/-- C1: for every pair of score lists of equal length at least 2 whose
elements after the first (identifier) element are integers,
`calculate_d_score` returns the sum of the absolute differences of the
corresponding elements, with the identifier element excluded. -/
theorem calculate_d_score_sum_abs (a b : ScoreElem) (ps ts : List Int)
    (hlen : ps.length = ts.length) (hne : ps ≠ []) :
    calculate_d_score (a :: ps.map ScoreElem.int) (b :: ts.map ScoreElem.int)
      = .ok (((ps.zip ts).map fun pt => |pt.1 - pt.2|).sum) :=
  calculate_d_score_map_int a b ps ts hlen hne

/-- Witness for C1: the spec's worked example,
P-Score `["A1", 2, 3, 1]` and T-Score `["A1", 2, 1, 1]` give D-Score 2. -/
theorem calculate_d_score_sum_abs_witness :
    calculate_d_score [.str "A1", .int 2, .int 3, .int 1] [.str "A1", .int 2, .int 1, .int 1]
      = .ok 2 := by
  have h := calculate_d_score_sum_abs (.str "A1") (.str "A1") [2, 3, 1] [2, 1, 1]
    (by decide) (by decide)
  exact h.trans (by decide)

/-- C8: for every valid equal-length pair, the D-Score is nonnegative and
is zero exactly when all corresponding numeric elements agree. -/
theorem calculate_d_score_nonneg_zero_iff (a b : ScoreElem) (ps ts : List Int)
    (hlen : ps.length = ts.length) (hne : ps ≠ []) (d : Int)
    (hd : calculate_d_score (a :: ps.map ScoreElem.int) (b :: ts.map ScoreElem.int) = .ok d) :
    0 ≤ d ∧ (d = 0 ↔ ps = ts) := by
  rw [calculate_d_score_map_int a b ps ts hlen hne] at hd
  cases hd
  exact ⟨sum_abs_zip_nonneg (ps.zip ts), sum_abs_zip_eq_zero_iff ps ts hlen⟩

/-- Witness for C8 at the spec's worked example: the D-Score 2 is
nonnegative and nonzero since the numeric tails differ. -/
theorem calculate_d_score_nonneg_zero_iff_witness :
    0 ≤ (2 : Int) ∧ ((2 : Int) = 0 ↔ [(2 : Int), 3, 1] = [2, 1, 1]) :=
  calculate_d_score_nonneg_zero_iff (.str "A1") (.str "A1") [2, 3, 1] [2, 1, 1]
    (by decide) (by decide) 2 (by decide)

/-- C4: for every pair of lists of unequal length, `calculate_d_score`
fails with the length-validation error, before any distance term is
computed (the sum on source line 224 is never reached), so no D-Score
value is produced. -/
theorem calculate_d_score_length_mismatch (p t : List ScoreElem) (h : p.length ≠ t.length) :
    calculate_d_score p t = .error "p_score and t_score must have the same length." := by
  unfold calculate_d_score
  rw [if_pos h]

/-- Witness for C4: a 2-element P-Score against a 1-element T-Score. -/
theorem calculate_d_score_length_mismatch_witness :
    calculate_d_score [.str "A1", .int 2] [.str "A1"]
      = .error "p_score and t_score must have the same length." :=
  calculate_d_score_length_mismatch _ _ (by decide)

/-- C7: for every non-empty T-Score string, `convert_t_score` succeeds:
the first element becomes the identifier and every later element is
converted independently, an unparseable element becoming the sentinel `-1`
(via `getD` on a failed parse) instead of raising, while the remaining
elements are still converted. -/
theorem convert_t_score_soft_failure (s : String) (e0 : List Char) (rest : List (List Char))
    (hs : s ≠ "") (helems : tScoreElements s = e0 :: rest) :
    convert_t_score s
      = .ok (ScoreElem.str (String.mk e0)
          :: rest.map fun i => ScoreElem.int ((pyIntOfChars i).getD (-1))) := by
  unfold convert_t_score
  rw [if_neg hs, helems]

/-- Witness for C7: in `"[A1, 2, xx, 3]"` the element `"xx"` fails integer
parsing and becomes `-1`, while `"2"` and `"3"` are still converted. -/
theorem convert_t_score_soft_failure_witness :
    convert_t_score "[A1, 2, xx, 3]" = .ok [.str "A1", .int 2, .int (-1), .int 3] := by
  have h := convert_t_score_soft_failure "[A1, 2, xx, 3]"
    (['A', '1']) ([['2'], ['x', 'x'], ['3']]) (by decide) (by decide)
  exact h.trans (by decide)

/-- C3: for every non-empty catalog and non-empty (after stripping) target
concern code, a successful `filter_treatments` returns exactly the rows
whose concern code starts with the target code, and it succeeds whenever
at least one row matches. -/
theorem filter_treatments_prefix_spec (data : List ScoredRow) (code : String)
    (hd : data ≠ []) (hc : pyStripWs code.toList ≠ []) :
    (∀ rows, filter_treatments data (.str code) = .ok rows → rows = data.filter (ccMatch code)) ∧
    (data.filter (ccMatch code) ≠ [] →
      filter_treatments data (.str code) = .ok (data.filter (ccMatch code))) := by
  constructor
  · intro rows hrows
    exact (filter_treatments_ok_inv hrows).1
  · intro hne
    rw [filter_treatments_eq data code hd hc, if_neg hne]

/-- Witness for C3: target `"A"` keeps the rows coded `"A"`, `"A1"`,
`"A23"` and excludes the row coded `"B1"`. -/
theorem filter_treatments_prefix_spec_witness :
    filter_treatments [⟨some "A", [], 0⟩, ⟨some "A1", [], 0⟩, ⟨some "A23", [], 0⟩,
        ⟨some "B1", [], 0⟩] (.str "A")
      = .ok [⟨some "A", [], 0⟩, ⟨some "A1", [], 0⟩, ⟨some "A23", [], 0⟩] := by
  have h := (filter_treatments_prefix_spec
      [⟨some "A", [], 0⟩, ⟨some "A1", [], 0⟩, ⟨some "A23", [], 0⟩, ⟨some "B1", [], 0⟩] "A"
      (by decide) (by decide)).2 (by decide)
  exact h.trans (by decide)

/-- C10: rows whose concern-code field is missing are silently dropped
before the prefix filter: they never appear in a successful result,
adding such a row changes nothing, and their presence never raises —
`filter_treatments` errors exactly when the prefix filter over the
remaining rows is empty. -/
theorem filter_treatments_missing_code_spec (data : List ScoredRow) (code : String)
    (hd : data ≠ []) (hc : pyStripWs code.toList ≠ []) :
    (∀ rows, filter_treatments data (.str code) = .ok rows →
      ∀ r ∈ rows, r.concernCode.isSome = true) ∧
    (∀ r0 : ScoredRow, r0.concernCode = none →
      filter_treatments (r0 :: data) (.str code) = filter_treatments data (.str code)) ∧
    ((∃ e, filter_treatments data (.str code) = .error e) ↔ data.filter (ccMatch code) = []) := by
  refine ⟨?_, ?_, ?_⟩
  · intro rows hrows r hr
    obtain ⟨hfeq, -⟩ := filter_treatments_ok_inv hrows
    rw [hfeq] at hr
    exact ccMatch_isSome (List.of_mem_filter hr)
  · intro r0 h0
    rw [filter_treatments_eq data code hd hc,
        filter_treatments_eq (r0 :: data) code (by simp) hc]
    have hcons : (r0 :: data).filter (ccMatch code) = data.filter (ccMatch code) := by
      rw [List.filter_cons]
      simp [ccMatch_none h0]
    rw [hcons]
  · rw [filter_treatments_eq data code hd hc]
    constructor
    · rintro ⟨e, he⟩
      by_cases hf : data.filter (ccMatch code) = []
      · exact hf
      · rw [if_neg hf] at he; cases he
    · intro hf
      exact ⟨_, by rw [if_pos hf]⟩

/-- Witness for C10: prepending a row with a missing concern code leaves
the filter result unchanged. -/
theorem filter_treatments_missing_code_spec_witness :
    filter_treatments [⟨none, [], 0⟩, ⟨some "A1", [], 0⟩] (.str "A")
      = filter_treatments [⟨some "A1", [], 0⟩] (.str "A") :=
  (filter_treatments_missing_code_spec [⟨some "A1", [], 0⟩] "A" (by decide) (by decide)).2.1
    ⟨none, [], 0⟩ rfl

/-- C2: for every filtered catalog with computed D-Scores, the
recommendation set `nsmallest 5` has size `min 5` the filtered size, is
sorted ascending by D-Score, and rows with equal D-Score appear in their
original order (each equal-D-Score class of the result is an initial
segment of that class in the input); the selection is a pure function of
the input, with no randomness. -/
theorem nsmallest_spec (rows : List ScoredRow) :
    (nsmallest 5 rows).length = min 5 rows.length ∧
    (nsmallest 5 rows).Pairwise dScoreLE ∧
    ∀ d : Int, (nsmallest 5 rows).filter (fun r => r.dScore == d)
        <+: rows.filter (fun r => r.dScore == d) :=
  ⟨nsmallest_length 5 rows, nsmallest_sorted 5 rows, fun d => nsmallest_stable 5 rows d⟩

/-- C5 counterexample: the pipeline of `recommend_treatments` differs from
the spec's filter-first Matcher.  With P-Score `["A", 1]` and a catalog
whose non-matching `"B1"` row has the one-element T-Score `"[B1]"`, the
code computes that row's D-Score before filtering and aborts with a
length-mismatch error, while the filter-first pipeline discards the row
and succeeds. -/
theorem recommend_treatments_order_counterexample :
    ¬ (recommend_treatments [.str "A", .int 1]
          [⟨some "A1", "[A1, 1]"⟩, ⟨some "B1", "[B1]"⟩]
        = recommend_treatments_filter_first [.str "A", .int 1]
          [⟨some "A1", "[A1, 1]"⟩, ⟨some "B1", "[B1]"⟩]) := by decide

/-- C5 amended: `recommend_treatments` converts and scores every loaded
catalog row first and filters afterwards: every row of a successful
recommendation did pass the prefix filter, but a conversion failure on
any row — matching or not — aborts the whole recommendation. -/
theorem recommend_treatments_score_then_filter (p : List ScoreElem) (data : List CatalogRow)
    (code : String) (hd : data ≠ []) (hh : p.head? = some (.str code)) (hcode : code ≠ "") :
    (∀ out, recommend_treatments p data = .ok out → ∀ r ∈ out, ccMatch code r = true) ∧
    (∀ r ∈ data, ∀ e, convert_t_score r.tScoreStr = .error e →
      ∃ e2, recommend_treatments p data = .error e2) := by
  have hfalsy : pyFalsy (.str code) = false := by simp [pyFalsy, hcode]
  constructor
  · intro out hout r hr
    simp only [recommend_treatments, if_neg hd, hh, hfalsy, Bool.false_eq_true, if_false] at hout
    split at hout
    · cases hout
    · rename_i scored hsc
      split at hout
      · cases hout
      · rename_i filtered hf
        by_cases hfe : filtered = []
        · rw [if_pos hfe] at hout; cases hout
        · rw [if_neg hfe] at hout
          cases hout
          have hrf : r ∈ filtered := nsmallest_subset hr
          obtain ⟨hfeq, -⟩ := filter_treatments_ok_inv hf
          rw [hfeq] at hrf
          exact List.of_mem_filter hrf
  · intro r hr e he
    obtain ⟨e2, h2⟩ := scoreAll_error_of_convert (p := p) hr he
    refine ⟨e2, ?_⟩
    simp only [recommend_treatments, if_neg hd, hh, hfalsy, Bool.false_eq_true, if_false, h2]

/-- Witness for the amended C5: a catalog whose non-matching `"B1"` row
has an unconvertible (empty) T-Score string still aborts the whole
recommendation for target `"A"`. -/
theorem recommend_treatments_score_then_filter_witness :
    ∃ e2, recommend_treatments [.str "A", .int 1]
        [⟨some "A1", "[A1, 1]"⟩, ⟨some "B1", ""⟩] = .error e2 :=
  (recommend_treatments_score_then_filter [.str "A", .int 1]
      [⟨some "A1", "[A1, 1]"⟩, ⟨some "B1", ""⟩] "A" (by decide) (by decide) (by decide)).2
    ⟨some "B1", ""⟩ (by decide) "Input must be a non-empty string representing a T-Score."
    (by decide)

/-- C6: when every scored row fails the prefix filter, the recommendation
aborts with the `"No treatments found"` error raised by
`filter_treatments`: no recommendation list is produced (so nothing is
displayed and no PDF can be generated downstream). -/
theorem recommend_treatments_no_match_error (p : List ScoreElem) (data : List CatalogRow)
    (code : String) (scored : List ScoredRow)
    (hd : data ≠ []) (hh : p.head? = some (.str code)) (hc : pyStripWs code.toList ≠ [])
    (hs : scoreAll p data = .ok scored)
    (hn : ∀ r ∈ scored, ccMatch code r = false) :
    recommend_treatments p data = .error ("No treatments found for Concern Code: " ++ code) := by
  have hcode : code ≠ "" := by
    intro h0
    rw [h0] at hc
    exact hc rfl
  have hfalsy : pyFalsy (.str code) = false := by simp [pyFalsy, hcode]
  have hscne : scored ≠ [] := by
    intro h0
    apply hd
    apply List.length_eq_zero.mp
    have hl := scoreAll_ok_length hs
    rw [h0] at hl
    exact hl.symm
  have hfil : scored.filter (ccMatch code) = [] :=
    List.filter_eq_nil_iff.mpr fun a ha => by simp [hn a ha]
  have hfe := filter_treatments_eq scored code hscne hc
  rw [if_pos hfil] at hfe
  simp only [recommend_treatments, if_neg hd, hh, hfalsy, Bool.false_eq_true, if_false, hs, hfe]

/-- Witness for C6: the spec's example — concern code `"Z"` matches no
catalog row, so the user-facing "No treatments found" error is raised and
no recommendation table exists. -/
theorem recommend_treatments_no_match_error_witness :
    recommend_treatments [.str "Z", .int 1] [⟨some "A1", "[A1, 1]"⟩]
      = .error ("No treatments found for Concern Code: " ++ "Z") :=
  recommend_treatments_no_match_error [.str "Z", .int 1] [⟨some "A1", "[A1, 1]"⟩] "Z"
    [⟨some "A1", [.str "A1", .int 1], 0⟩]
    (by decide) (by decide) (by decide) (by decide) (by decide)

/-- C9: for every non-empty question list and responses containing a valid
(non-empty) specific-interest code, `display_p_score` builds the score
list successfully — one identifier plus one entry per remaining question,
absent answers defaulting to 1 — and its length equals the number of
questions, so the "Incomplete data" length-mismatch branch is
unreachable. -/
theorem display_p_score_spec (questions : List Question) (responses : String → Option Int)
    (si : Option String) (code : String)
    (hq : questions ≠ []) (hcode : extract_concern_code (si.getD "") = some code)
    (hne : code ≠ "") :
    display_p_score questions responses si
        = .ok (ScoreElem.str code
            :: questions.tail.map fun q => ScoreElem.int ((responses q.question).getD 1))
      ∧ (ScoreElem.str code
            :: questions.tail.map fun q => ScoreElem.int ((responses q.question).getD 1)).length
          = questions.length := by
  have hlen : (ScoreElem.str code
      :: questions.tail.map fun q => ScoreElem.int ((responses q.question).getD 1)).length
        = questions.length := by
    have hp := List.length_pos.mpr hq
    simp only [List.length_cons, List.length_map, List.length_tail]
    omega
  refine ⟨?_, hlen⟩
  simp only [display_p_score, if_neg hq, hcode, if_neg hne, if_neg (not_not_intro hlen)]

/-- Witness for C9: two questions, a valid specific interest carrying code
`"A1"`, and an answer of 2 to the second question yield the score list
`["A1", 2]` of length 2. -/
theorem display_p_score_spec_witness :
    display_p_score [⟨"Q0", []⟩, ⟨"Q1", []⟩] (fun _ => some 2) (some "1) A1 Acne")
      = .ok [.str "A1", .int 2] := by
  have h := display_p_score_spec [⟨"Q0", []⟩, ⟨"Q1", []⟩] (fun _ => some 2)
    (some "1) A1 Acne") "A1" (by decide) (by decide) (by decide)
  exact h.1.trans (by decide)

end SkinneAdvisor
